import Mathlib

/-!
Verification of the RichFlow personal-finance repository: a shallow Lean
embedding of the event-payload validator (event.schema.ts), the database
migrations, the analysis trajectory HTTP handler, the frontend net-worth and
income-total computations, and the event-sourcing reducers, together with
theorems settling the specification claims about them.

Monetary quantities and JavaScript numbers are modelled as rationals; JSON
payloads are modelled by an inductive JsonValue type.
-/

namespace RichFlow

/-- JSON-like runtime value, the model of the untyped beforeValue/afterValue
payloads handed to the validator. -/
inductive JsonValue where
  | null : JsonValue
  | bool (b : Bool) : JsonValue
  | num (q : Rat) : JsonValue
  | str (s : String) : JsonValue
  | arr (elems : List JsonValue) : JsonValue
  | obj (fields : List (String × JsonValue)) : JsonValue
deriving Repr

/-- Entity types of the event log, from types/event.types. -/
inductive EntityType where
  | ASSET
  | LIABILITY
  | EXPENSE
  | INCOME
  | CASH_SAVINGS
  | USER
deriving Repr, DecidableEq

def entityTypeName : EntityType → String
  | .ASSET => "ASSET"
  | .LIABILITY => "LIABILITY"
  | .EXPENSE => "EXPENSE"
  | .INCOME => "INCOME"
  | .CASH_SAVINGS => "CASH_SAVINGS"
  | .USER => "USER"

/-- Longest leading run of decimal digits of a character list, with the rest. -/
def takeDigits : List Char → List Char × List Char
  | [] => ([], [])
  | c :: rest =>
    if c.isDigit then
      let (ds, r) := takeDigits rest
      (c :: ds, r)
    else ([], c :: rest)

def digitsToNat (ds : List Char) : Nat :=
  ds.foldl (fun acc c => 10 * acc + (c.toNat - 48)) 0

/-- Model of the JavaScript parseFloat used by the validator and the income
normalizer: skip leading whitespace, optional sign, then the longest prefix of
digits, an optional fraction and an optional exponent; none models NaN (no
digit found). The Infinity spellings accepted by parseFloat are not modelled:
no code path under verification feeds them. -/
def parseFloatOpt (s : String) : Option Rat :=
  let cs := s.toList.dropWhile (fun c => c == ' ' || c == '\t' || c == '\n' || c == '\r')
  let (sign, cs1) : Int × List Char :=
    match cs with
    | c :: rest =>
      if c == '-' then (-1, rest)
      else if c == '+' then (1, rest)
      else (1, cs)
    | [] => (1, [])
  let (intDs, cs2) := takeDigits cs1
  let (fracDs, cs3) :=
    match cs2 with
    | c :: rest => if c == '.' then takeDigits rest else ([], cs2)
    | [] => ([], [])
  if intDs.isEmpty && fracDs.isEmpty then none
  else
    let baseNum : Int :=
      sign * ((digitsToNat intDs * 10 ^ fracDs.length + digitsToNat fracDs : Nat) : Int)
    let baseDen : Nat := 10 ^ fracDs.length
    let expPart : Option Int :=
      match cs3 with
      | c :: rest =>
        if c == 'e' || c == 'E' then
          let (esign, r1) : Int × List Char :=
            match rest with
            | d :: r =>
              if d == '-' then (-1, r)
              else if d == '+' then (1, r)
              else (1, rest)
            | [] => (1, [])
          let (eds, _) := takeDigits r1
          if eds.isEmpty then none else some (esign * (digitsToNat eds : Int))
        else none
      | [] => none
    match expPart with
    | some e =>
      if 0 ≤ e then some (mkRat (baseNum * ((10 ^ e.toNat : Nat) : Int)) baseDen)
      else some (mkRat baseNum (baseDen * 10 ^ (-e).toNat))
    | none => some (mkRat baseNum baseDen)

/-- monetaryValueSchema of event.schema.ts: a zod union accepting a nonnegative
native number, any object (the Prisma-Decimal branch is object({}).passthrough()
and inspects nothing), or a string on which parseFloat is not NaN. The union
returns the matched value unchanged. -/
def monetaryValueSchema (v : JsonValue) : Bool :=
  match v with
  | .num q => decide (0 ≤ q)
  | .obj _ => true
  | .str s => (parseFloatOpt s).isSome
  | _ => false

def lookupField (fields : List (String × JsonValue)) (key : String) : Option JsonValue :=
  match fields with
  | [] => none
  | (k, v) :: rest => if k == key then some v else lookupField rest key

/-- z.string().min(1, msg) on an object field: issues produced, and the parsed
value when the check passes. -/
def checkStringMin1 (field msg : String) (fields : List (String × JsonValue)) :
    List String × Option JsonValue :=
  match lookupField fields field with
  | some (.str s) =>
    if 1 ≤ s.length then ([], some (.str s)) else ([field ++ ": " ++ msg], none)
  | some _ => ([field ++ ": Expected string"], none)
  | none => ([field ++ ": Required"], none)

/-- monetaryValueSchema on an object field. -/
def checkMonetary (field : String) (fields : List (String × JsonValue)) :
    List String × Option JsonValue :=
  match lookupField fields field with
  | some v =>
    if monetaryValueSchema v then ([], some v) else ([field ++ ": Invalid input"], none)
  | none => ([field ++ ": Required"], none)

/-- z.string().optional().nullable() on an object field; the parsed output is
the list of output fields this key contributes (empty when absent). -/
def checkOptionalNullableString (field : String) (fields : List (String × JsonValue)) :
    List String × Option (List (String × JsonValue)) :=
  match lookupField fields field with
  | none => ([], some [])
  | some .null => ([], some [(field, .null)])
  | some (.str s) => ([], some [(field, .str s)])
  | some _ => ([field ++ ": Expected string"], none)

/-- AssetEventDataSchema: object with name (non-empty string) and value
(monetary). Unknown keys are stripped, as zod object schemas do by default. -/
def AssetEventDataSchema (payload : JsonValue) : Except String JsonValue :=
  match payload with
  | .obj fields =>
    let (ni, nv) := checkStringMin1 "name" "Asset name is required" fields
    let (vi, vv) := checkMonetary "value" fields
    match nv, vv with
    | some n, some v => .ok (.obj [("name", n), ("value", v)])
    | _, _ => .error (String.intercalate "; " (ni ++ vi))
  | _ => .error "Expected object"

/-- LiabilityEventDataSchema: object with name (non-empty string) and value
(monetary). -/
def LiabilityEventDataSchema (payload : JsonValue) : Except String JsonValue :=
  match payload with
  | .obj fields =>
    let (ni, nv) := checkStringMin1 "name" "Liability name is required" fields
    let (vi, vv) := checkMonetary "value" fields
    match nv, vv with
    | some n, some v => .ok (.obj [("name", n), ("value", v)])
    | _, _ => .error (String.intercalate "; " (ni ++ vi))
  | _ => .error "Expected object"

/-- ExpenseEventDataSchema: object with name (non-empty string) and amount
(monetary). -/
def ExpenseEventDataSchema (payload : JsonValue) : Except String JsonValue :=
  match payload with
  | .obj fields =>
    let (ni, nv) := checkStringMin1 "name" "Expense name is required" fields
    let (ai, av) := checkMonetary "amount" fields
    match nv, av with
    | some n, some a => .ok (.obj [("name", n), ("amount", a)])
    | _, _ => .error (String.intercalate "; " (ni ++ ai))
  | _ => .error "Expected object"

/-- IncomeEventDataSchema: object with name, amount (monetary), type (non-empty
string) and optional nullable quadrant. -/
def IncomeEventDataSchema (payload : JsonValue) : Except String JsonValue :=
  match payload with
  | .obj fields =>
    let (ni, nv) := checkStringMin1 "name" "Income name is required" fields
    let (ai, av) := checkMonetary "amount" fields
    let (ti, tv) := checkStringMin1 "type" "Income type is required" fields
    let (qi, qv) := checkOptionalNullableString "quadrant" fields
    match nv, av, tv, qv with
    | some n, some a, some t, some q =>
      .ok (.obj ([("name", n), ("amount", a), ("type", t)] ++ q))
    | _, _, _, _ => .error (String.intercalate "; " (ni ++ ai ++ ti ++ qi))
  | _ => .error "Expected object"

/-- CashSavingsEventDataSchema: object with amount (monetary). -/
def CashSavingsEventDataSchema (payload : JsonValue) : Except String JsonValue :=
  match payload with
  | .obj fields =>
    let (ai, av) := checkMonetary "amount" fields
    match av with
    | some a => .ok (.obj [("amount", a)])
    | none => .error (String.intercalate "; " ai)
  | _ => .error "Expected object"

def isIntRat (q : Rat) : Bool := q.den == 1

/-- Email shape test standing in for the zod email pattern; the claims under
verification never exercise its fine structure. -/
def emailLike (s : String) : Bool := s.toList.contains '@'

/-- UserEventDataSchema: optional positive-integer preferredCurrencyId, optional
string name, optional email; passthrough, so the accepted payload is returned
whole. -/
def UserEventDataSchema (payload : JsonValue) : Except String JsonValue :=
  match payload with
  | .obj fields =>
    let pcOk :=
      match lookupField fields "preferredCurrencyId" with
      | none => true
      | some (.num q) => isIntRat q && decide (0 < q)
      | some _ => false
    let nameOk :=
      match lookupField fields "name" with
      | none => true
      | some (.str _) => true
      | some _ => false
    let emailOk :=
      match lookupField fields "email" with
      | none => true
      | some (.str s) => emailLike s
      | some _ => false
    if pcOk && nameOk && emailOk then .ok payload
    else .error "Invalid user preference fields"
  | _ => .error "Expected object"

/-- eventDataSchemaMap: the schema registry keyed by EntityType. -/
def eventDataSchemaMap (et : EntityType) : JsonValue → Except String JsonValue :=
  match et with
  | .ASSET => AssetEventDataSchema
  | .LIABILITY => LiabilityEventDataSchema
  | .EXPENSE => ExpenseEventDataSchema
  | .INCOME => IncomeEventDataSchema
  | .CASH_SAVINGS => CashSavingsEventDataSchema
  | .USER => UserEventDataSchema

/-- validateEventPayload: look up the schema for the entity type, parse, and on
failure throw a message prefixed with the entity type. In TypeScript the throw
is a JavaScript Error; here failure is the error branch of Except. -/
def validateEventPayload (et : EntityType) (payload : JsonValue) :
    Except String JsonValue :=
  match eventDataSchemaMap et payload with
  | .ok d => .ok d
  | .error msg =>
    .error ("Invalid " ++ entityTypeName et ++ " event payload: " ++ msg)

/-- Result type of the non-throwing validator variant. -/
inductive SafeValidationResult where
  | success (data : JsonValue) : SafeValidationResult
  | failure (error : String) : SafeValidationResult
deriving Repr

/-- safeValidateEventPayload: try validateEventPayload and catch, returning a
success or failure record instead of raising. -/
def safeValidateEventPayload (et : EntityType) (payload : JsonValue) :
    SafeValidationResult :=
  match validateEventPayload et payload with
  | .ok d => .success d
  | .error e => .failure e

/-- Boolean view of the validator outcome. -/
def validationPasses (et : EntityType) (payload : JsonValue) : Bool :=
  match validateEventPayload et payload with
  | .ok _ => true
  | .error _ => false

/-- Exact decimal denoted by a monetary JSON value, per the specification
wording on number-like values: a native number denotes itself, a numeric string
denotes its parsed value; an object denotes a decimal only through numeric
content of its own, which the empty object lacks and the validator never
inspects. -/
def decimalValueOf (v : JsonValue) : Option Rat :=
  match v with
  | .num q => some q
  | .str s => parseFloatOpt s
  | _ => none

/-! SQL schema model. The initial migration creates the entity tables with
DOUBLE PRECISION monetary columns; the decimal_precision migration alters each
of them to DECIMAL(15,2). Only the columns of the five entity tables carrying
monetary data are modelled; the remaining tables hold no monetary column. -/

inductive SqlColumnType where
  | serial
  | text
  | integer
  | boolean
  | timestamp
  | jsonb
  | doublePrecision
  | decimal (precision scale : Nat)
deriving Repr, DecidableEq

structure SqlColumn where
  table : String
  name : String
  colType : SqlColumnType
deriving Repr, DecidableEq

/-- Columns of the five monetary entity tables as created by the initial
migration (part of the CreateTable statements). -/
def initialSchemaColumns : List SqlColumn :=
  [ ⟨"Expense", "id", .serial⟩,
    ⟨"Expense", "name", .text⟩,
    ⟨"Expense", "amount", .doublePrecision⟩,
    ⟨"Expense", "isId", .integer⟩,
    ⟨"Asset", "id", .serial⟩,
    ⟨"Asset", "name", .text⟩,
    ⟨"Asset", "value", .doublePrecision⟩,
    ⟨"Asset", "bsId", .integer⟩,
    ⟨"Liability", "id", .serial⟩,
    ⟨"Liability", "name", .text⟩,
    ⟨"Liability", "value", .doublePrecision⟩,
    ⟨"Liability", "bsId", .integer⟩,
    ⟨"IncomeLine", "id", .serial⟩,
    ⟨"IncomeLine", "name", .text⟩,
    ⟨"IncomeLine", "amount", .doublePrecision⟩,
    ⟨"IncomeLine", "type", .text⟩,
    ⟨"IncomeLine", "isId", .integer⟩,
    ⟨"IncomeLine", "quadrant", .text⟩,
    ⟨"CashSavings", "id", .serial⟩,
    ⟨"CashSavings", "amount", .doublePrecision⟩,
    ⟨"CashSavings", "userId", .integer⟩ ]

/-- One ALTER TABLE ... ALTER COLUMN ... SET DATA TYPE statement. -/
structure AlterColumnType where
  table : String
  column : String
  newType : SqlColumnType
deriving Repr, DecidableEq

/-- The 20251226081726_decimal_precision migration: five ALTER TABLE
statements casting the monetary columns to DECIMAL(15,2). -/
def decimalPrecisionMigration : List AlterColumnType :=
  [ ⟨"Asset", "value", .decimal 15 2⟩,
    ⟨"CashSavings", "amount", .decimal 15 2⟩,
    ⟨"Expense", "amount", .decimal 15 2⟩,
    ⟨"IncomeLine", "amount", .decimal 15 2⟩,
    ⟨"Liability", "value", .decimal 15 2⟩ ]

def applyAlter (cols : List SqlColumn) (a : AlterColumnType) : List SqlColumn :=
  cols.map fun c =>
    if c.table == a.table && c.name == a.column then
      { c with colType := a.newType }
    else c

def applyMigration (cols : List SqlColumn) (alts : List AlterColumnType) :
    List SqlColumn :=
  alts.foldl applyAlter cols

/-- The schema of the entity tables after the decimal_precision migration. -/
def finalSchemaColumns : List SqlColumn :=
  applyMigration initialSchemaColumns decimalPrecisionMigration

/-- The monetary columns named by the specification. -/
def monetaryColumns : List (String × String) :=
  [ ("Asset", "value"),
    ("Liability", "value"),
    ("Expense", "amount"),
    ("IncomeLine", "amount"),
    ("CashSavings", "amount") ]

/-! Frontend net-worth computation, from UserFinancialView.tsx and the admin
financial view: total assets and total liabilities are folds of the balance
sheet rows and net worth is their difference; a missing balance sheet
contributes 0 through the JavaScript or-default. -/

structure AssetRow where
  id : Int
  name : String
  value : Rat
deriving Repr, DecidableEq

structure LiabilityRow where
  id : Int
  name : String
  value : Rat
deriving Repr, DecidableEq

structure BalanceSheetData where
  assets : List AssetRow
  liabilities : List LiabilityRow
deriving Repr, DecidableEq

def totalAssets (balanceSheet : Option BalanceSheetData) : Rat :=
  match balanceSheet with
  | some bs => bs.assets.foldl (fun sum a => sum + a.value) 0
  | none => 0

def totalLiabilities (balanceSheet : Option BalanceSheetData) : Rat :=
  match balanceSheet with
  | some bs => bs.liabilities.foldl (fun sum l => sum + l.value) 0
  | none => 0

def netWorth (balanceSheet : Option BalanceSheetData) : Rat :=
  totalAssets balanceSheet - totalLiabilities balanceSheet

/-! Analysis controller: getFinancialTrajectoryHandler. The request carries the
authenticated user id (absent or 0 is falsy in the source check), the optional
startDate, endDate and interval query strings (absent or empty is falsy). The
outcome is either an error response or the call into
getFinancialTrajectory with the resolved arguments. -/

structure TrajectoryRequest where
  userId : Option Nat
  startDate : Option String
  endDate : Option String
  interval : Option String
deriving Repr, DecidableEq

inductive TrajectoryOutcome where
  | unauthorized : TrajectoryOutcome
  | badRequest (error : String) : TrajectoryOutcome
  | serviceCall (userId : Nat) (startDate endDate interval : String) :
      TrajectoryOutcome
deriving Repr, DecidableEq

/-- HTTP status of each outcome: 401 for the missing-user guard, 400 for the
missing-date guard, 200 for the successful service path. -/
def TrajectoryOutcome.status : TrajectoryOutcome → Nat
  | .unauthorized => 401
  | .badRequest _ => 400
  | .serviceCall _ _ _ _ => 200

/-- JavaScript truthiness of the optional numeric user id. -/
def truthyUserId (v : Option Nat) : Bool :=
  match v with
  | none => false
  | some n => n != 0

/-- JavaScript falsiness of an optional query string: undefined or empty. -/
def falsyQueryString (v : Option String) : Bool :=
  match v with
  | none => true
  | some s => s == ""

def getFinancialTrajectoryHandler (req : TrajectoryRequest) : TrajectoryOutcome :=
  if !truthyUserId req.userId then .unauthorized
  else
    let interval :=
      match req.interval with
      | some s => if s == "" then "monthly" else s
      | none => "monthly"
    if falsyQueryString req.startDate || falsyQueryString req.endDate then
      .badRequest "startDate and endDate are required"
    else
      .serviceCall (req.userId.getD 0) (req.startDate.getD "") (req.endDate.getD "")
        interval

/-! Income normalization and totals, from useIncome.ts. Amounts are numbers or
numeric strings at the API boundary; parseFloat of a non-numeric string is NaN
in JavaScript, which has no rational counterpart and is modelled as 0 — the
claims under verification concern the bucket partition and sums of the coerced
amounts, not NaN propagation. -/

inductive IncomeType where
  | Earned
  | Portfolio
  | Passive
deriving Repr, DecidableEq

inductive IncomeQuadrant where
  | EMPLOYEE
  | SELF_EMPLOYED
  | BUSINESS_OWNER
  | INVESTOR
deriving Repr, DecidableEq

/-- Raw income line from the API, with the fields normalizeIncomeItem reads. -/
structure RawIncomeItem where
  id : Int
  name : String
  amount : JsonValue
  type : Option String
  quadrant : Option String

structure IncomeItem where
  id : Int
  name : String
  amount : Rat
  type : IncomeType
  quadrant : IncomeQuadrant
deriving Repr, DecidableEq

/-- Character-wise model of the JavaScript toUpperCase; the income type and
quadrant strings it is applied to are ASCII. -/
def asciiUpper (s : String) : String :=
  String.mk (s.data.map Char.toUpper)

/-- Character-wise model of the JavaScript trim. -/
def jsTrim (s : String) : String :=
  String.mk
    (((s.data.dropWhile fun c => c == ' ' || c == '\t' || c == '\n' || c == '\r')
        |>.reverse.dropWhile fun c => c == ' ' || c == '\t' || c == '\n' || c == '\r')
      |>.reverse)

def typeQuadrantFallback : IncomeType → IncomeQuadrant
  | .Earned => .EMPLOYEE
  | .Portfolio => .INVESTOR
  | .Passive => .BUSINESS_OWNER

def normalizeQuadrant (v : Option String) (fallback : IncomeQuadrant) :
    IncomeQuadrant :=
  match v with
  | some s =>
    let n := asciiUpper (jsTrim s)
    if n == "EMPLOYEE" then .EMPLOYEE
    else if n == "SELF_EMPLOYED" then .SELF_EMPLOYED
    else if n == "BUSINESS_OWNER" then .BUSINESS_OWNER
    else if n == "INVESTOR" then .INVESTOR
    else fallback
  | none => fallback

/-- parseIncomeType: compare the uppercased type string against the three kinds
and default to Earned otherwise (including a missing type, whose optional chain
yields undefined). -/
def parseIncomeType (t : Option String) : IncomeType :=
  match t with
  | some s =>
    let upper := asciiUpper s
    if upper == "EARNED" then .Earned
    else if upper == "PORTFOLIO" then .Portfolio
    else if upper == "PASSIVE" then .Passive
    else .Earned
  | none => .Earned

/-- Coercion of the raw amount: a number is kept, anything else goes through
parseFloat of its string form; only the string case occurs in the data. -/
def coerceAmount (v : JsonValue) : Rat :=
  match v with
  | .num q => q
  | .str s => (parseFloatOpt s).getD 0
  | _ => 0

def normalizeIncomeItem (item : RawIncomeItem) : IncomeItem :=
  let t := parseIncomeType item.type
  { id := item.id
    name := item.name
    amount := coerceAmount item.amount
    type := t
    quadrant := normalizeQuadrant item.quadrant (typeQuadrantFallback t) }

structure NormalizedIncome where
  earned : List IncomeItem
  portfolio : List IncomeItem
  passive : List IncomeItem
  all : List IncomeItem
deriving Repr, DecidableEq

def normalizeIncomeData (data : List RawIncomeItem) : NormalizedIncome :=
  let all := data.map normalizeIncomeItem
  { earned := all.filter fun i => i.type == .Earned
    portfolio := all.filter fun i => i.type == .Portfolio
    passive := all.filter fun i => i.type == .Passive
    all := all }

structure IncomeTotals where
  earned : Rat
  portfolio : Rat
  passive : Rat
  total : Rat
  passiveAndPortfolio : Rat
deriving Repr, DecidableEq

/-- Sum of the amounts of a bucket, as the reduce in calculateIncomeTotals. -/
def sumAmounts (items : List IncomeItem) : Rat :=
  items.foldl (fun sum i => sum + i.amount) 0

def calculateIncomeTotals (income : NormalizedIncome) : IncomeTotals :=
  let earned := sumAmounts income.earned
  let portfolio := sumAmounts income.portfolio
  let passive := sumAmounts income.passive
  { earned := earned
    portfolio := portfolio
    passive := passive
    total := earned + portfolio + passive
    passiveAndPortfolio := passive + portfolio }

/-! Event-sourcing reducers.

Modelled from the spec: the file reducers.ts (backend/src/domain/financial/)
is named by the architecture document but is not among the provided sources;
the root reducer, the six entity reducers and the FinancialState value type
are modelled from specification sections 3 and 4.3 — typed payload records, a
root dispatch on entityType, CREATE inserting a fresh keyed record (an already
present key is a fatal replay error), UPDATE replacing an existing record (a
missing key is a fatal replay error), DELETE removing a record with absence
tolerated as a no-op, and cash savings as a scalar. The reducers are plain
functions of (state, event): they consult nothing else, perform no
input/output and read no clock, as section 4.3 requires. -/

inductive ActionType where
  | CREATE
  | UPDATE
  | DELETE
deriving Repr, DecidableEq

/-- Typed event payload, the tagged union of section 9 that reaches the
reducers after validation. -/
inductive EventPayload where
  | assetData (name : String) (value : Rat)
  | liabilityData (name : String) (value : Rat)
  | incomeData (name : String) (amount : Rat) (type : String)
      (quadrant : Option String)
  | expenseData (name : String) (amount : Rat)
  | cashSavingsData (amount : Rat)
  | userData (preferredCurrency : Option String)
deriving Repr, DecidableEq

structure Event where
  id : Nat
  actionType : ActionType
  entityType : EntityType
  entityId : Nat
  beforeValue : Option EventPayload
  afterValue : Option EventPayload
deriving Repr, DecidableEq

structure StateAsset where
  id : Nat
  name : String
  value : Rat
deriving Repr, DecidableEq

structure StateLiability where
  id : Nat
  name : String
  value : Rat
deriving Repr, DecidableEq

structure StateIncome where
  id : Nat
  name : String
  amount : Rat
  type : String
  quadrant : Option String
deriving Repr, DecidableEq

structure StateExpense where
  id : Nat
  name : String
  amount : Rat
deriving Repr, DecidableEq

/-- FinancialState of section 3: keyed containers per entity kind, a scalar
cash-savings amount and the preferred currency. -/
structure FinancialState where
  assets : List StateAsset
  liabilities : List StateLiability
  incomes : List StateIncome
  expenses : List StateExpense
  cashSavings : Rat
  currency : String
deriving Repr, DecidableEq

def emptyFinancialState : FinancialState :=
  { assets := []
    liabilities := []
    incomes := []
    expenses := []
    cashSavings := 0
    currency := "USD" }

inductive ReplayError where
  | createOnExisting (entityType : EntityType) (entityId : Nat)
  | updateOnMissing (entityType : EntityType) (entityId : Nat)
  | malformedPayload (entityType : EntityType) (entityId : Nat)
deriving Repr, DecidableEq

/-- Insert a fresh record into a keyed container; none when the key exists. -/
def insertKeyed (key : α → Nat) (xs : List α) (x : α) : Option (List α) :=
  if xs.any (fun y => key y == key x) then none else some (xs ++ [x])

/-- Replace the record with the given key; none when the key is absent. -/
def updateKeyed (key : α → Nat) (xs : List α) (x : α) : Option (List α) :=
  if xs.any (fun y => key y == key x) then
    some (xs.map fun y => if key y == key x then x else y)
  else none

/-- Remove the record with the given key; absence is a no-op. -/
def deleteKeyed (key : α → Nat) (xs : List α) (k : Nat) : List α :=
  xs.filter fun y => key y != k

def assetReducer (state : FinancialState) (e : Event) :
    Except ReplayError FinancialState :=
  match e.actionType with
  | .CREATE =>
    match e.afterValue with
    | some (.assetData name value) =>
      match insertKeyed StateAsset.id state.assets ⟨e.entityId, name, value⟩ with
      | some xs => .ok { state with assets := xs }
      | none => .error (.createOnExisting .ASSET e.entityId)
    | _ => .error (.malformedPayload .ASSET e.entityId)
  | .UPDATE =>
    match e.afterValue with
    | some (.assetData name value) =>
      match updateKeyed StateAsset.id state.assets ⟨e.entityId, name, value⟩ with
      | some xs => .ok { state with assets := xs }
      | none => .error (.updateOnMissing .ASSET e.entityId)
    | _ => .error (.malformedPayload .ASSET e.entityId)
  | .DELETE =>
    .ok { state with assets := deleteKeyed StateAsset.id state.assets e.entityId }

def liabilityReducer (state : FinancialState) (e : Event) :
    Except ReplayError FinancialState :=
  match e.actionType with
  | .CREATE =>
    match e.afterValue with
    | some (.liabilityData name value) =>
      match insertKeyed StateLiability.id state.liabilities
          ⟨e.entityId, name, value⟩ with
      | some xs => .ok { state with liabilities := xs }
      | none => .error (.createOnExisting .LIABILITY e.entityId)
    | _ => .error (.malformedPayload .LIABILITY e.entityId)
  | .UPDATE =>
    match e.afterValue with
    | some (.liabilityData name value) =>
      match updateKeyed StateLiability.id state.liabilities
          ⟨e.entityId, name, value⟩ with
      | some xs => .ok { state with liabilities := xs }
      | none => .error (.updateOnMissing .LIABILITY e.entityId)
    | _ => .error (.malformedPayload .LIABILITY e.entityId)
  | .DELETE =>
    .ok { state with
          liabilities := deleteKeyed StateLiability.id state.liabilities e.entityId }

def incomeReducer (state : FinancialState) (e : Event) :
    Except ReplayError FinancialState :=
  match e.actionType with
  | .CREATE =>
    match e.afterValue with
    | some (.incomeData name amount t q) =>
      match insertKeyed StateIncome.id state.incomes
          ⟨e.entityId, name, amount, t, q⟩ with
      | some xs => .ok { state with incomes := xs }
      | none => .error (.createOnExisting .INCOME e.entityId)
    | _ => .error (.malformedPayload .INCOME e.entityId)
  | .UPDATE =>
    match e.afterValue with
    | some (.incomeData name amount t q) =>
      match updateKeyed StateIncome.id state.incomes
          ⟨e.entityId, name, amount, t, q⟩ with
      | some xs => .ok { state with incomes := xs }
      | none => .error (.updateOnMissing .INCOME e.entityId)
    | _ => .error (.malformedPayload .INCOME e.entityId)
  | .DELETE =>
    .ok { state with incomes := deleteKeyed StateIncome.id state.incomes e.entityId }

def expenseReducer (state : FinancialState) (e : Event) :
    Except ReplayError FinancialState :=
  match e.actionType with
  | .CREATE =>
    match e.afterValue with
    | some (.expenseData name amount) =>
      match insertKeyed StateExpense.id state.expenses
          ⟨e.entityId, name, amount⟩ with
      | some xs => .ok { state with expenses := xs }
      | none => .error (.createOnExisting .EXPENSE e.entityId)
    | _ => .error (.malformedPayload .EXPENSE e.entityId)
  | .UPDATE =>
    match e.afterValue with
    | some (.expenseData name amount) =>
      match updateKeyed StateExpense.id state.expenses
          ⟨e.entityId, name, amount⟩ with
      | some xs => .ok { state with expenses := xs }
      | none => .error (.updateOnMissing .EXPENSE e.entityId)
    | _ => .error (.malformedPayload .EXPENSE e.entityId)
  | .DELETE =>
    .ok { state with
          expenses := deleteKeyed StateExpense.id state.expenses e.entityId }

def cashSavingsReducer (state : FinancialState) (e : Event) :
    Except ReplayError FinancialState :=
  match e.actionType with
  | .CREATE | .UPDATE =>
    match e.afterValue with
    | some (.cashSavingsData amount) => .ok { state with cashSavings := amount }
    | _ => .error (.malformedPayload .CASH_SAVINGS e.entityId)
  | .DELETE => .ok { state with cashSavings := 0 }

def userReducer (state : FinancialState) (e : Event) :
    Except ReplayError FinancialState :=
  match e.actionType with
  | .CREATE | .UPDATE =>
    match e.afterValue with
    | some (.userData (some c)) => .ok { state with currency := c }
    | some (.userData none) => .ok state
    | _ => .error (.malformedPayload .USER e.entityId)
  | .DELETE => .ok state

/-- rootReducer: dispatch on the entity type of the event. -/
def rootReducer (state : FinancialState) (e : Event) :
    Except ReplayError FinancialState :=
  match e.entityType with
  | .ASSET => assetReducer state e
  | .LIABILITY => liabilityReducer state e
  | .EXPENSE => expenseReducer state e
  | .INCOME => incomeReducer state e
  | .CASH_SAVINGS => cashSavingsReducer state e
  | .USER => userReducer state e

/-- replayEvents: fold an ordered event list through the root reducer,
stopping at the first replay error. -/
def replayEvents (state : FinancialState) (events : List Event) :
    Except ReplayError FinancialState :=
  match events with
  | [] => .ok state
  | e :: rest =>
    match rootReducer state e with
    | .ok s2 => replayEvents s2 rest
    | .error err => .error err

/-- Replay judgement: starting from a state, folding the event list through the
root reducer produces the given outcome (final state or first replay error).
Two derivations for one start state and one event list model two independent
runs of the same replay. -/
inductive ReplaysTo :
    FinancialState → List Event → Except ReplayError FinancialState → Prop where
  | done (s : FinancialState) : ReplaysTo s [] (.ok s)
  | step {s s2 : FinancialState} {e : Event} {E : List Event}
      {r : Except ReplayError FinancialState} :
      rootReducer s e = .ok s2 → ReplaysTo s2 E r → ReplaysTo s (e :: E) r
  | fail {s : FinancialState} {e : Event} {E : List Event} {err : ReplayError} :
      rootReducer s e = .error err → ReplaysTo s (e :: E) (.error err)

/-- Demonstration event used by the replay determinism witness. -/
def demoAssetEvent : Event :=
  { id := 1
    actionType := .CREATE
    entityType := .ASSET
    entityId := 1
    beforeValue := none
    afterValue := some (.assetData "House" 300000) }

/-- State after replaying the demonstration event from the empty state. -/
def demoState1 : FinancialState :=
  { emptyFinancialState with assets := [⟨1, "House", 300000⟩] }

/-! Helper lemmas shared by the claim theorems. -/

theorem foldl_add_map_sum {α : Type} (f : α → Rat) (l : List α) (init : Rat) :
    l.foldl (fun s a => s + f a) init = init + (l.map f).sum := by
  induction l generalizing init with
  | nil => simp
  | cons a t ih =>
    rw [List.foldl_cons, ih, List.map_cons, List.sum_cons]
    ring

theorem sumAmounts_eq_sum (l : List IncomeItem) :
    sumAmounts l = (l.map IncomeItem.amount).sum := by
  simpa using foldl_add_map_sum IncomeItem.amount l 0

theorem filter_type_sum (l : List IncomeItem) :
    sumAmounts (l.filter fun i => i.type == .Earned) +
      sumAmounts (l.filter fun i => i.type == .Portfolio) +
      sumAmounts (l.filter fun i => i.type == .Passive) = sumAmounts l := by
  induction l with
  | nil => simp [sumAmounts]
  | cons a t ih =>
    rcases ht : a.type <;>
      simp only [List.filter_cons, ht, sumAmounts_eq_sum, List.map_cons,
        List.sum_cons, beq_iff_eq, reduceCtorEq, if_true, if_false,
        reduceIte] at ih ⊢ <;>
      linarith [ih]

theorem filter_type_length (l : List IncomeItem) :
    (l.filter fun i => i.type == .Earned).length +
      (l.filter fun i => i.type == .Portfolio).length +
      (l.filter fun i => i.type == .Passive).length = l.length := by
  induction l with
  | nil => rfl
  | cons a t ih =>
    rcases ht : a.type <;> simp [List.filter_cons, ht] <;> omega

theorem replaysTo_det {s : FinancialState} {E : List Event}
    {r1 r2 : Except ReplayError FinancialState}
    (h1 : ReplaysTo s E r1) (h2 : ReplaysTo s E r2) : r1 = r2 := by
  induction h1 generalizing r2 with
  | done s => cases h2; rfl
  | step hstep htail ih =>
    cases h2 with
    | step hstep2 htail2 =>
      rw [hstep] at hstep2
      injection hstep2 with hs
      subst hs
      exact ih htail2
    | fail hfail =>
      rw [hstep] at hfail
      exact absurd hfail (by simp)
  | fail hfail =>
    cases h2 with
    | step hstep2 htail2 =>
      rw [hfail] at hstep2
      exact absurd hstep2 (by simp)
    | fail hfail2 =>
      rw [hfail] at hfail2
      injection hfail2 with he
      rw [he]

theorem replaysTo_replayEvents (s : FinancialState) (E : List Event) :
    ReplaysTo s E (replayEvents s E) := by
  induction E generalizing s with
  | nil => exact .done s
  | cons e rest ih =>
    cases hr : rootReducer s e with
    | ok s2 =>
      have : replayEvents s (e :: rest) = replayEvents s2 rest := by
        simp [replayEvents, hr]
      rw [this]
      exact .step hr (ih s2)
    | error err =>
      have : replayEvents s (e :: rest) = .error err := by
        simp [replayEvents, hr]
      rw [this]
      exact .fail hr

/-- C1: replay is deterministic — two replays of the same event sequence from
the empty FinancialState through the root reducer reach equal outcomes. The
reducers, being plain Lean functions of (state, event), consult nothing
outside that pair. -/
theorem C1_replay_deterministic (E : List Event)
    (r1 r2 : Except ReplayError FinancialState)
    (h1 : ReplaysTo emptyFinancialState E r1)
    (h2 : ReplaysTo emptyFinancialState E r2) : r1 = r2 :=
  replaysTo_det h1 h2

/-- C1 witness: two independent replay derivations of the one-event demo
sequence are forced to the same final state. -/
theorem C1_replay_deterministic_witness :
    replayEvents emptyFinancialState [demoAssetEvent] = Except.ok demoState1 :=
  C1_replay_deterministic [demoAssetEvent] _ _
    (replaysTo_replayEvents emptyFinancialState [demoAssetEvent])
    (@ReplaysTo.step emptyFinancialState demoState1 demoAssetEvent []
      (Except.ok demoState1) rfl (ReplaysTo.done demoState1))

/-- C2 counterexample: validateEventPayload does not normalize monetary input
to a decimal — the object branch of the monetary union accepts the empty
object, which denotes no decimal value at all, and returns it unchanged. -/
theorem C2_counterexample :
    validateEventPayload .INCOME
        (.obj [("name", .str "Job"), ("amount", .obj []), ("type", .str "Earned")]) =
      .ok (.obj [("name", .str "Job"), ("amount", .obj []), ("type", .str "Earned")]) ∧
    decimalValueOf (.obj []) = none :=
  ⟨rfl, rfl⟩

/-- C2 amended: the validator passes an accepted monetary value through
unchanged rather than normalizing it; in particular the INCOME payload with
the numeric string 1200.50 succeeds with the amount still that string, whose
denoted value is exactly the decimal 1200.50 (no floating-point rounding). -/
theorem C2_amended_passthrough (v : JsonValue) (h : monetaryValueSchema v = true) :
    validateEventPayload .INCOME
        (.obj [("name", .str "Job"), ("amount", v), ("type", .str "Earned")]) =
      .ok (.obj [("name", .str "Job"), ("amount", v), ("type", .str "Earned")]) ∧
    decimalValueOf (.str "1200.50") = some (mkRat 2401 2) ∧
    (mkRat 2401 2 : Rat) = 1200.50 := by
  refine ⟨?_, by decide, by norm_num [Rat.mkRat_eq_div]⟩
  have hname : checkStringMin1 "name" "Income name is required"
      [("name", .str "Job"), ("amount", v), ("type", .str "Earned")] =
      ([], some (.str "Job")) := rfl
  have htype : checkStringMin1 "type" "Income type is required"
      [("name", .str "Job"), ("amount", v), ("type", .str "Earned")] =
      ([], some (.str "Earned")) := rfl
  have hquad : checkOptionalNullableString "quadrant"
      [("name", .str "Job"), ("amount", v), ("type", .str "Earned")] =
      ([], some []) := rfl
  have hlook : lookupField
      [("name", .str "Job"), ("amount", v), ("type", .str "Earned")] "amount" =
      some v := rfl
  have hamt : checkMonetary "amount"
      [("name", .str "Job"), ("amount", v), ("type", .str "Earned")] =
      ([], some v) := by
    simp [checkMonetary, hlook, h]
  simp [validateEventPayload, eventDataSchemaMap, IncomeEventDataSchema,
    hname, htype, hquad, hamt]

/-- C2 amended witness: the spec example payload, evaluated concretely. -/
theorem C2_amended_passthrough_witness :
    validateEventPayload .INCOME
        (.obj [("name", .str "Job"), ("amount", .str "1200.50"),
               ("type", .str "Earned")]) =
      .ok (.obj [("name", .str "Job"), ("amount", .str "1200.50"),
                 ("type", .str "Earned")]) ∧
    decimalValueOf (.str "1200.50") = some (mkRat 2401 2) ∧
    (mkRat 2401 2 : Rat) = 1200.50 :=
  C2_amended_passthrough (.str "1200.50") (by decide)

/-- C3 counterexample: a negative quantity supplied as a numeric string is not
rejected — EXPENSE with amount the string -5 passes validation although the
string denotes the negative decimal -5. -/
theorem C3_counterexample :
    validateEventPayload .EXPENSE
        (.obj [("name", .str "Rent"), ("amount", .str "-5")]) =
      .ok (.obj [("name", .str "Rent"), ("amount", .str "-5")]) ∧
    decimalValueOf (.str "-5") = some (-5 : Rat) ∧ (-5 : Rat) < 0 :=
  ⟨rfl, by decide, by norm_num⟩

/-- C3 amended: the nonnegativity constraint on monetary values applies only
to the native-number form — every negative native number is rejected for each
of the five monetary entity types, while the same negative quantity as a
numeric string is accepted. -/
theorem C3_amended_negative_numbers_only (q : Rat) (h : q < 0) :
    validationPasses .ASSET (.obj [("name", .str "House"), ("value", .num q)]) = false ∧
    validationPasses .LIABILITY (.obj [("name", .str "Loan"), ("value", .num q)]) = false ∧
    validationPasses .EXPENSE (.obj [("name", .str "Rent"), ("amount", .num q)]) = false ∧
    validationPasses .INCOME
      (.obj [("name", .str "Job"), ("amount", .num q), ("type", .str "Earned")]) = false ∧
    validationPasses .CASH_SAVINGS (.obj [("amount", .num q)]) = false ∧
    validationPasses .EXPENSE
      (.obj [("name", .str "Rent"), ("amount", .str "-5")]) = true := by
  have hm : monetaryValueSchema (.num q) = false := by
    simp [monetaryValueSchema]
    linarith
  refine ⟨?_, ?_, ?_, ?_, ?_, by decide⟩ <;>
    simp [validationPasses, validateEventPayload, eventDataSchemaMap,
      AssetEventDataSchema, LiabilityEventDataSchema, ExpenseEventDataSchema,
      IncomeEventDataSchema, CashSavingsEventDataSchema, checkStringMin1,
      checkMonetary, checkOptionalNullableString, lookupField, hm]

/-- C3 amended witness: instantiated at the negative number -5. -/
theorem C3_amended_negative_numbers_only_witness :
    validationPasses .EXPENSE
        (.obj [("name", .str "Rent"), ("amount", .num (-5))]) = false ∧
    validationPasses .EXPENSE
        (.obj [("name", .str "Rent"), ("amount", .str "-5")]) = true :=
  ⟨(C3_amended_negative_numbers_only (-5) (by norm_num)).2.2.1,
   (C3_amended_negative_numbers_only (-5) (by norm_num)).2.2.2.2.2⟩

/-- C4: the validator rejects the spec example bad payloads — ASSET with an
empty name and EXPENSE with the negative native number -5 fail, while the
INCOME payload with the numeric string 1200.50 succeeds. -/
theorem C4_payload_rejection :
    validationPasses .ASSET (.obj [("name", .str ""), ("value", .num 10)]) = false ∧
    validationPasses .EXPENSE
      (.obj [("name", .str "Rent"), ("amount", .num (-5))]) = false ∧
    validationPasses .INCOME
      (.obj [("name", .str "Job"), ("amount", .str "1200.50"),
             ("type", .str "Earned")]) = true :=
  ⟨by decide, by decide, by decide⟩

/-- C5: safeValidateEventPayload never raises and mirrors validateEventPayload
exactly — it returns success with the same data precisely when validation
succeeds, and failure carrying the thrown message precisely when validation
throws. -/
theorem C5_safe_validate_mirrors (et : EntityType) (p : JsonValue) :
    (∀ d, safeValidateEventPayload et p = .success d ↔
      validateEventPayload et p = .ok d) ∧
    (∀ m, safeValidateEventPayload et p = .failure m ↔
      validateEventPayload et p = .error m) := by
  cases h : validateEventPayload et p with
  | ok d =>
    constructor <;> intro x <;> simp [safeValidateEventPayload, h]
  | error m =>
    constructor <;> intro x <;> simp [safeValidateEventPayload, h]

/-- C5 witness: the mirror property evaluated on one succeeding and one
failing payload. -/
theorem C5_safe_validate_mirrors_witness :
    safeValidateEventPayload .CASH_SAVINGS (.obj [("amount", .num 5)]) =
      .success (.obj [("amount", .num 5)]) ∧
    safeValidateEventPayload .CASH_SAVINGS (.obj []) =
      .failure "Invalid CASH_SAVINGS event payload: amount: Required" :=
  ⟨((C5_safe_validate_mirrors .CASH_SAVINGS
      (.obj [("amount", .num 5)])).1 _).mpr rfl,
   ((C5_safe_validate_mirrors .CASH_SAVINGS (.obj [])).2 _).mpr rfl⟩

/-- C6: after the decimal_precision migration, every monetary column of the
entity tables — Asset.value, Liability.value, Expense.amount,
IncomeLine.amount and CashSavings.amount — has type DECIMAL(15,2), and no
monetary column remains DOUBLE PRECISION. -/
theorem C6_monetary_columns_decimal :
    (monetaryColumns.all fun p =>
      finalSchemaColumns.any fun c =>
        c.table == p.1 && c.name == p.2 && (c.colType == .decimal 15 2)) = true ∧
    (finalSchemaColumns.all fun c =>
      !(monetaryColumns.any fun p => c.table == p.1 && c.name == p.2) ||
        (c.colType == .decimal 15 2 && !(c.colType == .doublePrecision))) = true :=
  ⟨by decide, by decide⟩

/-- C7: net worth is total assets minus total liabilities — for every balance
sheet the computed netWorth equals the sum of the asset values minus the sum
of the liability values, and the House/Mortgage example yields 50000. -/
theorem C7_net_worth (bs : BalanceSheetData) :
    netWorth (some bs) =
      (bs.assets.map AssetRow.value).sum -
        (bs.liabilities.map LiabilityRow.value).sum ∧
    netWorth (some ⟨[⟨1, "House", 300000⟩], [⟨2, "Mortgage", 250000⟩]⟩) = 50000 := by
  constructor
  · simp [netWorth, totalAssets, totalLiabilities, foldl_add_map_sum]
  · simp [netWorth, totalAssets, totalLiabilities]
    norm_num

/-- C7 witness: the end-to-end example state evaluated concretely. -/
theorem C7_net_worth_witness :
    netWorth (some ⟨[⟨1, "House", 300000⟩], [⟨2, "Mortgage", 250000⟩]⟩) = 50000 :=
  (C7_net_worth ⟨[⟨1, "House", 300000⟩], [⟨2, "Mortgage", 250000⟩]⟩).2

/-- C8: the decimal-object branch of the monetary union performs no check on
object contents — for every entity type with a monetary field and every
object whatsoever in that field, including the empty object, validation
passes. -/
theorem C8_object_amounts_accepted (fs : List (String × JsonValue)) :
    validationPasses .ASSET
      (.obj [("name", .str "A"), ("value", .obj fs)]) = true ∧
    validationPasses .LIABILITY
      (.obj [("name", .str "L"), ("value", .obj fs)]) = true ∧
    validationPasses .EXPENSE
      (.obj [("name", .str "E"), ("amount", .obj fs)]) = true ∧
    validationPasses .INCOME
      (.obj [("name", .str "I"), ("amount", .obj fs),
             ("type", .str "Earned")]) = true ∧
    validationPasses .CASH_SAVINGS (.obj [("amount", .obj fs)]) = true :=
  ⟨rfl, rfl, rfl, rfl, rfl⟩

/-- C8 witness: instantiated at the empty object. -/
theorem C8_object_amounts_accepted_witness :
    validationPasses .ASSET
      (.obj [("name", .str "A"), ("value", .obj [])]) = true ∧
    validationPasses .CASH_SAVINGS (.obj [("amount", .obj [])]) = true :=
  ⟨(C8_object_amounts_accepted []).1, (C8_object_amounts_accepted []).2.2.2.2⟩

/-- C9: the trajectory handler answers 401 before any service call when the
authenticated user id is missing; answers 400 with the message startDate and
endDate are required, without calling the service, when either date is absent;
and defaults the interval to monthly when it is omitted. -/
theorem C9_trajectory_guards (req : TrajectoryRequest) :
    (truthyUserId req.userId = false →
      getFinancialTrajectoryHandler req = .unauthorized ∧
      (getFinancialTrajectoryHandler req).status = 401) ∧
    (truthyUserId req.userId = true →
      (req.startDate = none ∨ req.endDate = none) →
      getFinancialTrajectoryHandler req =
        .badRequest "startDate and endDate are required" ∧
      (getFinancialTrajectoryHandler req).status = 400 ∧
      ∀ u s e i, getFinancialTrajectoryHandler req ≠ .serviceCall u s e i) ∧
    (truthyUserId req.userId = true → req.interval = none →
      ∀ u s e i, getFinancialTrajectoryHandler req = .serviceCall u s e i →
        i = "monthly") := by
  obtain ⟨uid, sd, ed, iv⟩ := req
  refine ⟨fun hu => ?_, fun hu hd => ?_, fun hu hi u s e i hc => ?_⟩
  · simp [getFinancialTrajectoryHandler, hu, TrajectoryOutcome.status]
  · simp only at hu hd
    rcases hd with hd | hd <;> subst hd <;>
      refine ⟨?_, ?_, ?_⟩ <;>
      simp [getFinancialTrajectoryHandler, hu, falsyQueryString,
        TrajectoryOutcome.status]
  · simp only at hu hi hc
    subst hi
    simp only [getFinancialTrajectoryHandler, hu, Bool.not_true,
      Bool.false_eq_true, if_false] at hc
    split at hc
    · exact absurd hc (by simp)
    · injection hc with h1 h2 h3 h4
      exact h4.symm

/-- C9 witness: an authenticated request missing startDate is answered with
the 400 error, and an unauthenticated request with 401. -/
theorem C9_trajectory_guards_witness :
    getFinancialTrajectoryHandler
        ⟨some 1, none, some "2025-01-31", none⟩ =
      .badRequest "startDate and endDate are required" ∧
    getFinancialTrajectoryHandler ⟨none, some "2025-01-01", some "2025-01-31", none⟩ =
      .unauthorized :=
  ⟨((C9_trajectory_guards ⟨some 1, none, some "2025-01-31", none⟩).2.1
      (by decide) (Or.inl rfl)).1,
   ((C9_trajectory_guards ⟨none, some "2025-01-01", some "2025-01-31", none⟩).1
      (by decide)).1⟩

/-- C10: calculateIncomeTotals is a sum homomorphism over a partition of the
income list — normalizeIncomeData places every normalized item in exactly one
of the earned, portfolio and passive buckets (an unrecognized type string
defaults to Earned), the total equals the sum of every normalized amount, and
passiveAndPortfolio equals passive plus portfolio. -/
theorem C10_income_totals (data : List RawIncomeItem) :
    (∀ i, i ∈ (normalizeIncomeData data).earned ↔
      i ∈ (normalizeIncomeData data).all ∧ i.type = .Earned) ∧
    (∀ i, i ∈ (normalizeIncomeData data).portfolio ↔
      i ∈ (normalizeIncomeData data).all ∧ i.type = .Portfolio) ∧
    (∀ i, i ∈ (normalizeIncomeData data).passive ↔
      i ∈ (normalizeIncomeData data).all ∧ i.type = .Passive) ∧
    (normalizeIncomeData data).earned.length +
        (normalizeIncomeData data).portfolio.length +
        (normalizeIncomeData data).passive.length =
      (normalizeIncomeData data).all.length ∧
    (∀ s : String, asciiUpper s ≠ "EARNED" → asciiUpper s ≠ "PORTFOLIO" →
      asciiUpper s ≠ "PASSIVE" → parseIncomeType (some s) = .Earned) ∧
    (calculateIncomeTotals (normalizeIncomeData data)).total =
      sumAmounts (normalizeIncomeData data).all ∧
    (calculateIncomeTotals (normalizeIncomeData data)).passiveAndPortfolio =
      (calculateIncomeTotals (normalizeIncomeData data)).passive +
        (calculateIncomeTotals (normalizeIncomeData data)).portfolio := by
  refine ⟨?_, ?_, ?_, ?_, ?_, ?_, ?_⟩
  · intro i
    simp [normalizeIncomeData, List.mem_filter]
  · intro i
    simp [normalizeIncomeData, List.mem_filter]
  · intro i
    simp [normalizeIncomeData, List.mem_filter]
  · simpa [normalizeIncomeData] using
      filter_type_length (data.map normalizeIncomeItem)
  · intro s h1 h2 h3
    simp [parseIncomeType, h1, h2, h3]
  · have := filter_type_sum (data.map normalizeIncomeItem)
    simpa [calculateIncomeTotals, normalizeIncomeData] using this
  · rfl

/-- C10 witness: the homomorphism evaluated on a two-item income list, and the
default bucket for the unrecognized type string DIVIDEND. -/
theorem C10_income_totals_witness :
    (calculateIncomeTotals (normalizeIncomeData
        [⟨1, "Salary", .num 5000, some "Earned", some "EMPLOYEE"⟩,
         ⟨2, "Rent", .num 1200, some "Passive", none⟩])).total =
      sumAmounts (normalizeIncomeData
        [⟨1, "Salary", .num 5000, some "Earned", some "EMPLOYEE"⟩,
         ⟨2, "Rent", .num 1200, some "Passive", none⟩]).all ∧
    parseIncomeType (some "DIVIDEND") = .Earned :=
  ⟨(C10_income_totals
      [⟨1, "Salary", .num 5000, some "Earned", some "EMPLOYEE"⟩,
       ⟨2, "Rent", .num 1200, some "Passive", none⟩]).2.2.2.2.2.1,
   (C10_income_totals []).2.2.2.2.1 "DIVIDEND"
     (by decide) (by decide) (by decide)⟩

end RichFlow
